import Mathlib

/-!
Shallow embedding of the kanban backend (apps `kanban_app` and `user_auth_app`).

The relational data of `kanban_app/models.py` is modelled as lists of records in
a `Store`; Django querysets become list filters, primary-key lookups become
`List.find?` on ids.  The permission classes of `kanban_app/api/permissions.py`
become boolean predicates, and the view/serializer pipelines of
`kanban_app/api/views.py` and `kanban_app/api/serializers.py` become functions
in the `Except ApiError` monad: an `Except.error` models a DRF exception
response, in which case nothing is written to the store.  The actor argument of
every operation is an authenticated user (the `IsAuthenticated` component of
each `permission_classes` list is the reason an actor id is available at all).
-/

namespace Kanban

abbrev UserId := Nat

/-- A row of the Django user table (the fields the serializers read). -/
structure UserRec where
  id : UserId
  username : String
  email : String
  first_name : String
  last_name : String
deriving Repr, DecidableEq

/-- `Board` from `kanban_app/models.py`: title, owner FK, members M2M. -/
structure Board where
  id : Nat
  title : String
  owner : UserId
  members : List UserId
deriving Repr, DecidableEq

/-- `Task` from `kanban_app/models.py`.  `priority` and `status` are the stored
character fields (their legal values are `PRIORITY_CHOICES` / `STATUS_CHOICES`);
`board` is the id of the owning board (FK, `on_delete=CASCADE`); `assignee` and
`reviewer` are nullable user FKs (`on_delete=SET_NULL`); `owner` is a user FK. -/
structure Task where
  id : Nat
  title : String
  description : String
  priority : String
  status : String
  due_date : Option String
  board : Nat
  assignee : Option UserId
  reviewer : Option UserId
  owner : UserId
deriving Repr, DecidableEq

/-- `Comment` from `kanban_app/models.py`: task FK (`on_delete=CASCADE`),
author FK, auto timestamp, content. -/
structure Comment where
  id : Nat
  task : Nat
  author : UserId
  created_at : Nat
  content : String
deriving Repr, DecidableEq

/-- `Task.PRIORITY_CHOICES` from `kanban_app/models.py`. -/
def PRIORITY_CHOICES : List String := ["low", "medium", "high"]

/-- `Task.STATUS_CHOICES` from `kanban_app/models.py`. -/
def STATUS_CHOICES : List String := ["to-do", "in-progress", "review", "done"]

/-- The relational store: one list per table. -/
structure Store where
  users : List UserRec
  boards : List Board
  tasks : List Task
  comments : List Comment
deriving Repr, DecidableEq

/-- `User.objects.get(id=...)` / `.filter(pk=...).first()`. -/
def Store.getUser (s : Store) (uid : Nat) : Option UserRec :=
  s.users.find? (fun u => u.id == uid)

/-- `Board.objects.get(id=...)` / `.filter(pk=...).first()`. -/
def Store.getBoard (s : Store) (bid : Nat) : Option Board :=
  s.boards.find? (fun b => b.id == bid)

/-- `Task.objects.get(id=...)`. -/
def Store.getTask (s : Store) (tid : Nat) : Option Task :=
  s.tasks.find? (fun t => t.id == tid)

/-- HTTP methods the views dispatch on. -/
inductive Method where
  | GET
  | POST
  | PATCH
  | DELETE
deriving Repr, DecidableEq

/-- The DRF exception kinds the application raises, with their detail
payloads: `NotFound` (404), `PermissionDenied` (403, optional custom detail),
a field-scoped serializer `ValidationError` (400), and the literal 400
`Response` returned by `TaskDetail.partial_update` for a `board` key. -/
inductive ApiError where
  | notFound (detail : String)
  | permissionDenied (detail : Option String)
  | validationError (field : String) (message : String)
  | badRequest (detail : String)
deriving Repr, DecidableEq

/-- `true` iff the error is a serializer `ValidationError` or a
`PermissionDenied`. -/
def ApiError.isValidationOrPermission : ApiError → Bool
  | .validationError _ _ => true
  | .permissionDenied _ => true
  | _ => false

/-- Run a mutating operation: on success the new store, on error the original
store together with the error (a DRF exception response writes nothing). -/
def runOp (s : Store) (r : Except ApiError Store) : Store × Option ApiError :=
  match r with
  | .ok s2 => (s2, none)
  | .error e => (s, some e)

/-- `IsOwnerOrMemberWithDeleteOwnerOnly.has_object_permission`
(`kanban_app/api/permissions.py`): DELETE requires `obj.owner == request.user`;
any other method requires owner or membership. -/
def isOwnerOrMemberWithDeleteOwnerOnly (method : Method) (user : UserId) (obj : Board) : Bool :=
  if method = .DELETE then
    obj.owner == user
  else
    user == obj.owner || obj.members.contains user

/-- `IsBoardMember.has_object_permission` (`kanban_app/api/permissions.py`):
`user in board.members.all()` — membership of the member list only; the board
owner is not consulted. -/
def isBoardMember (user : UserId) (board : Board) : Bool :=
  board.members.contains user

/-- `IsTaskOwnerOrBoardOwner.has_object_permission`
(`kanban_app/api/permissions.py`): DELETE requires
`request.user == obj.owner or request.user == obj.board.owner`; every other
method returns `True`. -/
def isTaskOwnerOrBoardOwner (method : Method) (user : UserId) (obj : Task) (board : Board) : Bool :=
  if method = .DELETE then
    user == obj.owner || user == board.owner
  else
    true

/-- `IsBoardMemberForComments.has_permission`
(`kanban_app/api/permissions.py`): resolve the task from the URL `task_id`;
if it does not exist return `False`; otherwise the user must be the board's
owner or one of its members.  (The inner board lookup models the `task.board`
FK dereference, which always succeeds on FK-consistent stores.) -/
def isBoardMemberForComments (s : Store) (user : UserId) (task_id : Nat) : Bool :=
  match s.getTask task_id with
  | none => false
  | some task =>
    match s.getBoard task.board with
    | none => false
    | some board => user == board.owner || board.members.contains user

/-- The object-level permission gate of `TaskDetail` (`kanban_app/api/views.py`,
`permission_classes = [IsBoardMember, IsAuthenticated, IsTaskOwnerOrBoardOwner]`):
all permission classes must grant access.  The `obj.board` FK dereference is the
board lookup. -/
def taskDetailObjectPermission (s : Store) (method : Method) (user : UserId) (obj : Task) : Bool :=
  match s.getBoard obj.board with
  | none => false
  | some board => isBoardMember user board && isTaskOwnerOrBoardOwner method user obj board

/-- `BoardListCreateView.get_queryset`:
`Board.objects.filter(Q(owner=user) | Q(members=user)).distinct()`. -/
def list_boards (s : Store) (user : UserId) : List Board :=
  (s.boards.filter (fun b => b.owner == user || b.members.contains user)).dedup

/-- Cascade semantics of deleting board `bid`
(`Task.board` and `Comment.task` are `on_delete=CASCADE`): the board row, its
tasks, and the comments of those tasks are removed. -/
def Store.cascadeDeleteBoard (s : Store) (bid : Nat) : Store :=
  { s with
    boards := s.boards.filter (fun b => b.id != bid),
    tasks := s.tasks.filter (fun t => t.board != bid),
    comments := s.comments.filter (fun c =>
      !(s.tasks.any (fun t => t.id == c.task && t.board == bid))) }

/-- `BoardDetailView` DELETE (`kanban_app/api/views.py`): resolve the board
(404 if absent), run `IsOwnerOrMemberWithDeleteOwnerOnly` at method DELETE
(403 on failure), then delete with FK cascade. -/
def deleteBoard (s : Store) (user : UserId) (board_id : Nat) : Except ApiError Store :=
  match s.getBoard board_id with
  | none => Except.error (ApiError.notFound "No Board matches the given query.")
  | some board =>
    if isOwnerOrMemberWithDeleteOwnerOnly .DELETE user board then
      Except.ok (s.cascadeDeleteBoard board.id)
    else
      Except.error (ApiError.permissionDenied none)

/-- `CommentDestroy` (`kanban_app/api/views.py`): the queryset is
`Comment.objects.filter(task_id=...)`, the object is looked up by pk within it;
`perform_destroy` raises `PermissionDenied` unless the requester is the author,
otherwise deletes the comment row. -/
def commentDestroy (s : Store) (user : UserId) (task_id comment_id : Nat) : Except ApiError Store :=
  match (s.comments.filter (fun c => c.task == task_id)).find? (fun c => c.id == comment_id) with
  | none => Except.error (ApiError.notFound "No Comment matches the given query.")
  | some c =>
    if c.author != user then
      Except.error (ApiError.permissionDenied none)
    else
      Except.ok { s with comments := s.comments.filter (fun x => x.id != comment_id) }

/-- `CommentList` GET (`kanban_app/api/views.py`): `IsBoardMemberForComments`
runs first (403 on failure), then the queryset
`Comment.objects.filter(task_id=...)` is returned. -/
def commentList (s : Store) (user : UserId) (task_id : Nat) : Except ApiError (List Comment) :=
  if isBoardMemberForComments s user task_id then
    Except.ok (s.comments.filter (fun c => c.task == task_id))
  else
    Except.error (ApiError.permissionDenied none)

/-- `CommentList` POST (`kanban_app/api/views.py`): `IsBoardMemberForComments`
runs first (403 on failure); `perform_create` then calls `get_task_or_404`
(404 `"Task not found."` if absent) and saves the comment with the requesting
user as author. -/
def commentCreate (s : Store) (user : UserId) (task_id : Nat) (content : String)
    (new_id now : Nat) : Except ApiError Store :=
  if isBoardMemberForComments s user task_id then
    match s.getTask task_id with
    | none => Except.error (ApiError.notFound "Task not found.")
    | some task =>
      Except.ok { s with comments :=
        s.comments ++ [{ id := new_id, task := task.id, author := user,
                         created_at := now, content := content }] }
  else
    Except.error (ApiError.permissionDenied none)

/-- The request body of `POST /tasks/` as `TaskListSerializer` declares it:
`board`, `assignee_id`, `reviewer_id` are required write-only fields;
`due_date` is nullable. -/
structure TaskCreateRequest where
  board : Nat
  title : String
  description : String
  status : String
  priority : String
  assignee_id : Nat
  reviewer_id : Nat
  due_date : Option String
deriving Repr, DecidableEq

/-- `TaskListSerializer.validate_assignee_id`: re-resolve the raw `board` id
(`initial_data`), 404 if absent; resolve the assignee user, field-scoped
`ValidationError` if absent; `PermissionDenied` unless the assignee is the
board's owner or one of its members. -/
def validate_assignee_id (s : Store) (board_raw : Nat) (value : Nat) : Except ApiError Nat :=
  match s.getBoard board_raw with
  | none => Except.error (ApiError.notFound "Board not found.")
  | some board =>
    match s.getUser value with
    | none => Except.error (ApiError.validationError "assignee_id" "Assignee not found.")
    | some u =>
      if u.id != board.owner && !board.members.contains u.id then
        Except.error (ApiError.permissionDenied (some "Assignee must be a member of the board."))
      else
        Except.ok value

/-- `TaskListSerializer.validate_reviewer_id`: same shape as the assignee
validator. -/
def validate_reviewer_id (s : Store) (board_raw : Nat) (value : Nat) : Except ApiError Nat :=
  match s.getBoard board_raw with
  | none => Except.error (ApiError.notFound "Board not found.")
  | some board =>
    match s.getUser value with
    | none => Except.error (ApiError.validationError "reviewer_id" "Reviewer not found.")
    | some u =>
      if u.id != board.owner && !board.members.contains u.id then
        Except.error (ApiError.permissionDenied (some "Reviewer must be a member of the board."))
      else
        Except.ok value

/-- `TaskListSerializer.resolve_user`: resolve an optional user id, raising a
field-scoped `ValidationError` `"User not found."` when it dangles. -/
def resolve_user (s : Store) (user_id : Option Nat) (field_name : String) :
    Except ApiError (Option UserId) :=
  match user_id with
  | none => Except.ok none
  | some uid =>
    match s.getUser uid with
    | none => Except.error (ApiError.validationError field_name "User not found.")
    | some u => Except.ok (some u.id)

/-- `POST /tasks/` (`TaskList` + `TaskListSerializer`), the stages in the order
the code runs them: `BoardRelatedField.to_internal_value` (404 on a dangling
board id), the `ChoiceField` checks generated from the model choices,
`validate_assignee_id`, `validate_reviewer_id`, the serializer-level
`validate` (creator must be board owner or member), the redundant re-checks of
`TaskList.check_user_can_create_task`, and finally `TaskListSerializer.create`
with `owner=request.user`. -/
def createTask (s : Store) (user : UserId) (r : TaskCreateRequest) (new_id : Nat) :
    Except ApiError Store := do
  let board ← (match s.getBoard r.board with
    | none => Except.error (ApiError.notFound "Board not found")
    | some b => Except.ok b)
  if !STATUS_CHOICES.contains r.status then
    throw (ApiError.validationError "status" "is not a valid choice.")
  if !PRIORITY_CHOICES.contains r.priority then
    throw (ApiError.validationError "priority" "is not a valid choice.")
  let _ ← validate_assignee_id s r.board r.assignee_id
  let _ ← validate_reviewer_id s r.board r.reviewer_id
  if user != board.owner && !board.members.contains user then
    throw (ApiError.permissionDenied (some "You are not allowed to create tasks for this board."))
  if (s.getBoard board.id).isNone then
    throw (ApiError.notFound "Board not found")
  if user != board.owner && !board.members.contains user then
    throw (ApiError.permissionDenied (some "You are not allowed to create tasks for this board."))
  let assignee ← resolve_user s (some r.assignee_id) "assignee_id"
  let reviewer ← resolve_user s (some r.reviewer_id) "reviewer_id"
  Except.ok { s with tasks := s.tasks ++ [{
    id := new_id, title := r.title, description := r.description,
    priority := r.priority, status := r.status, due_date := r.due_date,
    board := board.id, assignee := assignee, reviewer := reviewer, owner := user }] }

/-- A PATCH body for `/tasks/{id}`: each field of `TaskDetailSerializer` is
present (`some`) or absent (`none`); `board` models the raw `board` key that
`TaskDetail.partial_update` looks for in `request.data` (the serializer itself
has no `board` field). -/
structure TaskPatch where
  board : Option Nat
  title : Option String
  description : Option String
  status : Option String
  priority : Option String
  assignee_id : Option Nat
  reviewer_id : Option Nat
  due_date : Option (Option String)
deriving Repr, DecidableEq

/-- `TaskDetailSerializer` on a partial update: the `ChoiceField` checks on any
provided `status`/`priority`, then `update`: resolve `assignee_id` /
`reviewer_id` (field-scoped `"User not found."` on a dangling id), then assign
the remaining provided fields. -/
def taskDetailSerializerUpdate (s : Store) (t : Task) (p : TaskPatch) : Except ApiError Task := do
  if (match p.status with | some v => !STATUS_CHOICES.contains v | none => false) then
    throw (ApiError.validationError "status" "is not a valid choice.")
  if (match p.priority with | some v => !PRIORITY_CHOICES.contains v | none => false) then
    throw (ApiError.validationError "priority" "is not a valid choice.")
  let assignee ← (match p.assignee_id with
    | none => Except.ok t.assignee
    | some uid =>
      match s.getUser uid with
      | none => Except.error (ApiError.validationError "assignee_id" "User not found.")
      | some u => Except.ok (some u.id))
  let reviewer ← (match p.reviewer_id with
    | none => Except.ok t.reviewer
    | some uid =>
      match s.getUser uid with
      | none => Except.error (ApiError.validationError "reviewer_id" "User not found.")
      | some u => Except.ok (some u.id))
  Except.ok { t with
    title := p.title.getD t.title,
    description := p.description.getD t.description,
    status := p.status.getD t.status,
    priority := p.priority.getD t.priority,
    due_date := p.due_date.getD t.due_date,
    assignee := assignee, reviewer := reviewer }

/-- `TaskDetail.partial_update` (`kanban_app/api/views.py`): first the guard
`if 'board' in request.data` returns the 400 response with detail
`"Modification of the board is not allowed."`; only then does the generic
update run: object lookup (404), object permissions (403), serializer update,
and the row is replaced in the store. -/
def taskPatchUpdate (s : Store) (user : UserId) (task_id : Nat) (p : TaskPatch) :
    Except ApiError Store :=
  if p.board.isSome then
    Except.error (ApiError.badRequest "Modification of the board is not allowed.")
  else
    match s.getTask task_id with
    | none => Except.error (ApiError.notFound "No Task matches the given query.")
    | some t =>
      if taskDetailObjectPermission s .PATCH user t then
        match taskDetailSerializerUpdate s t p with
        | .error e => Except.error e
        | .ok t2 =>
          Except.ok { s with tasks := s.tasks.map (fun x => if x.id == task_id then t2 else x) }
      else
        Except.error (ApiError.permissionDenied none)

/-- `TaskDetail` DELETE: object lookup (404), the composed object permission at
method DELETE (403), then the row is deleted, cascading to its comments
(`Comment.task` is `on_delete=CASCADE`). -/
def taskDelete (s : Store) (user : UserId) (task_id : Nat) : Except ApiError Store :=
  match s.getTask task_id with
  | none => Except.error (ApiError.notFound "No Task matches the given query.")
  | some t =>
    if taskDetailObjectPermission s .DELETE user t then
      Except.ok { s with
        tasks := s.tasks.filter (fun x => x.id != task_id),
        comments := s.comments.filter (fun c => c.task != task_id) }
    else
      Except.error (ApiError.permissionDenied none)

/-- `BoardListSerializer.get_member_count`. -/
def get_member_count (b : Board) : Nat := b.members.length

/-- `BoardListSerializer.get_ticket_count`: `obj.tasks.count()`. -/
def get_ticket_count (s : Store) (b : Board) : Nat :=
  (s.tasks.filter (fun t => t.board == b.id)).length

/-- `BoardListSerializer.get_tasks_to_do_count`:
`obj.tasks.filter(status='To-Do').count()`. -/
def get_tasks_to_do_count (s : Store) (b : Board) : Nat :=
  (s.tasks.filter (fun t => t.board == b.id && t.status == "To-Do")).length

/-- `BoardListSerializer.get_tasks_high_prio_count`
(`kanban_app/api/serializers.py`): the code filters
`obj.tasks.filter(status='High')` — the **status** column, not the priority
column, despite the docstring "Return count of tasks with priority 'High'". -/
def get_tasks_high_prio_count (s : Store) (b : Board) : Nat :=
  (s.tasks.filter (fun t => t.board == b.id && t.status == "High")).length

/-- Django's `User.__str__` returns the username (`str(user)`). -/
def userStr (u : UserRec) : String := u.username

/-- Python's `str.strip()`: drop whitespace from both ends of the character
sequence. -/
def pyStrip (s : String) : String :=
  ⟨((s.data.dropWhile Char.isWhitespace).reverse.dropWhile Char.isWhitespace).reverse⟩

/-- `UserMiniSerializer.get_fullname` (`user_auth_app/api/serializers.py`):
`f"{obj.first_name} {obj.last_name}".strip()` — no fallback of any kind. -/
def get_fullname (u : UserRec) : String :=
  pyStrip (u.first_name ++ " " ++ u.last_name)

/-- `CommentListSerializer.get_author` (`kanban_app/api/serializers.py`):
the same join-and-strip, but falling back to `str(obj.author)` when the
result is empty (Python truthiness of the stripped string). -/
def get_author (u : UserRec) : String :=
  let fullname := pyStrip (u.first_name ++ " " ++ u.last_name)
  if fullname != "" then fullname else userStr u

/-- Modelled from the spec: "fullname is derived (first+last, trimmed, falling
back to string form if both blank)" — the user-mini fullname as §6 of the spec
describes it, for comparison against `get_fullname`. -/
def specUserMiniFullname (u : UserRec) : String :=
  let f := pyStrip (u.first_name ++ " " ++ u.last_name)
  if f = "" then userStr u else f

/-!
Concrete fixtures used by counterexamples and witnesses: Alice (id 1) owns
both boards, Bob (id 2) is a member of board 1, Carol (id 3) is an outsider.
Board 2 has an empty member list, so its owner is not a member of it.
-/

def aliceU : UserRec :=
  { id := 1, username := "alice", email := "alice@example.com",
    first_name := "Alice", last_name := "Ada" }

def bobU : UserRec :=
  { id := 2, username := "bob", email := "bob@example.com",
    first_name := "Bob", last_name := "B" }

def carolU : UserRec :=
  { id := 3, username := "carol", email := "carol@example.com",
    first_name := "Carol", last_name := "C" }

def board1 : Board := { id := 1, title := "Main", owner := 1, members := [2] }

def board2 : Board := { id := 2, title := "Solo", owner := 1, members := [] }

def task1 : Task :=
  { id := 1, title := "T1", description := "", priority := "high", status := "to-do",
    due_date := none, board := 1, assignee := none, reviewer := none, owner := 2 }

def task2 : Task :=
  { id := 2, title := "T2", description := "", priority := "low", status := "done",
    due_date := none, board := 2, assignee := none, reviewer := none, owner := 1 }

def comment1 : Comment := { id := 1, task := 1, author := 2, created_at := 10, content := "c1" }

def comment2 : Comment := { id := 2, task := 1, author := 1, created_at := 11, content := "c2" }

def exStore : Store :=
  { users := [aliceU, bobU, carolU], boards := [board1, board2],
    tasks := [task1, task2], comments := [comment1, comment2] }

/-- A board survives the cascade of deleting board `bid` iff it was present and
is not the deleted one. -/
theorem mem_cascadeDeleteBoard_boards (s : Store) (bid : Nat) (b2 : Board) :
    b2 ∈ (s.cascadeDeleteBoard bid).boards ↔ b2 ∈ s.boards ∧ b2.id ≠ bid := by
  simp [Store.cascadeDeleteBoard, List.mem_filter]

/-- A task survives the cascade of deleting board `bid` iff it was present and
not on that board. -/
theorem mem_cascadeDeleteBoard_tasks (s : Store) (bid : Nat) (t : Task) :
    t ∈ (s.cascadeDeleteBoard bid).tasks ↔ t ∈ s.tasks ∧ t.board ≠ bid := by
  simp [Store.cascadeDeleteBoard, List.mem_filter]

/-- A comment survives the cascade of deleting board `bid` iff it was present
and no stored task with its id sits on that board. -/
theorem mem_cascadeDeleteBoard_comments (s : Store) (bid : Nat) (c : Comment) :
    c ∈ (s.cascadeDeleteBoard bid).comments ↔
      c ∈ s.comments ∧ ∀ t ∈ s.tasks, t.id = c.task → t.board ≠ bid := by
  simp only [Store.cascadeDeleteBoard, List.mem_filter, Bool.not_eq_true',
    List.any_eq_false, Bool.and_eq_true, beq_iff_eq, not_and]

/-- C1 counterexample: Alice owns board 2 but is not in its member list, so on
task 2 the board-membership stage (`IsBoardMember`) rejects her, and with it
the whole composed task update/delete permission — refuting "member **or
owner** of the task's board". -/
theorem C1_counterexample :
    board2.owner = 1 ∧
    isBoardMember 1 board2 = false ∧
    taskDetailObjectPermission exStore .PATCH 1 task2 = false ∧
    taskDetailObjectPermission exStore .DELETE 1 task2 = false := by
  decide

/-- C1 (amended): the board-membership stage of Task update/delete passes iff
the actor is an element of the task's board's member list (the board owner gets
no exemption); consequently the composed permission implies membership, and for
non-DELETE methods it is equivalent to membership. -/
theorem C1_membership_stage (s : Store) (m : Method) (u : UserId) (t : Task) (b : Board)
    (hb : s.getBoard t.board = some b) :
    (isBoardMember u b = true ↔ u ∈ b.members) ∧
    (taskDetailObjectPermission s m u t = true → u ∈ b.members) ∧
    (m ≠ .DELETE → (taskDetailObjectPermission s m u t = true ↔ u ∈ b.members)) := by
  unfold taskDetailObjectPermission
  rw [hb]
  refine ⟨by simp [isBoardMember], ?_, ?_⟩
  · intro h
    simp only [Bool.and_eq_true, isBoardMember] at h
    simpa using h.1
  · intro hm
    simp [isBoardMember, isTaskOwnerOrBoardOwner, hm]

/-- Witness for `C1_membership_stage`: Bob on task 1 of board 1. -/
theorem C1_membership_stage_witness :
    (isBoardMember 2 board1 = true ↔ 2 ∈ board1.members) ∧
    (taskDetailObjectPermission exStore .PATCH 2 task1 = true → 2 ∈ board1.members) ∧
    (Method.PATCH ≠ Method.DELETE →
      (taskDetailObjectPermission exStore .PATCH 2 task1 = true ↔ 2 ∈ board1.members)) :=
  C1_membership_stage exStore .PATCH 2 task1 board1 rfl

/-- C2: once the board is resolved, the composed `TaskDetail` permission at
DELETE holds iff the actor passes the membership stage **and** is the task's
owner or the board's owner; at PATCH (update) the ownership stage passes
unconditionally, so the permission is membership alone. -/
theorem C2_two_stage (s : Store) (u : UserId) (t : Task) (b : Board)
    (hb : s.getBoard t.board = some b) :
    (taskDetailObjectPermission s .DELETE u t = true ↔
      (u ∈ b.members ∧ (u = t.owner ∨ u = b.owner))) ∧
    (taskDetailObjectPermission s .PATCH u t = true ↔ u ∈ b.members) := by
  unfold taskDetailObjectPermission
  rw [hb]
  constructor
  · simp [isBoardMember, isTaskOwnerOrBoardOwner]
  · simp [isBoardMember, isTaskOwnerOrBoardOwner]

/-- Witness for `C2_two_stage`: Bob (member and task owner) on task 1. -/
theorem C2_two_stage_witness :
    (taskDetailObjectPermission exStore .DELETE 2 task1 = true ↔
      (2 ∈ board1.members ∧ (2 = task1.owner ∨ 2 = board1.owner))) ∧
    (taskDetailObjectPermission exStore .PATCH 2 task1 = true ↔ 2 ∈ board1.members) :=
  C2_two_stage exStore 2 task1 board1 rfl

/-- C3: for a stored board `b`, a DELETE by anyone other than the owner (in
particular by any non-owner member) fails with `PermissionDenied` and leaves
the store — hence `b`, its tasks and their comments — untouched; a DELETE by
the owner succeeds and removes `b`, every task of `b`, and every comment of
those tasks, while everything unrelated persists. -/
theorem C3_board_delete (s : Store) (u : UserId) (b : Board)
    (hb : s.getBoard b.id = some b) :
    b ∈ s.boards ∧
    (u ≠ b.owner →
      runOp s (deleteBoard s u b.id) = (s, some (ApiError.permissionDenied none))) ∧
    (u = b.owner →
      deleteBoard s u b.id = Except.ok (s.cascadeDeleteBoard b.id) ∧
      (∀ b2 ∈ (s.cascadeDeleteBoard b.id).boards, b2.id ≠ b.id) ∧
      (∀ t ∈ (s.cascadeDeleteBoard b.id).tasks, t.board ≠ b.id) ∧
      (∀ c ∈ (s.cascadeDeleteBoard b.id).comments,
        ∀ t ∈ s.tasks, t.id = c.task → t.board ≠ b.id) ∧
      (∀ b2 ∈ s.boards, b2.id ≠ b.id → b2 ∈ (s.cascadeDeleteBoard b.id).boards) ∧
      (∀ t ∈ s.tasks, t.board ≠ b.id → t ∈ (s.cascadeDeleteBoard b.id).tasks) ∧
      (∀ c ∈ s.comments, (∀ t ∈ s.tasks, t.id = c.task → t.board ≠ b.id) →
        c ∈ (s.cascadeDeleteBoard b.id).comments)) := by
  have hmem : b ∈ s.boards := List.mem_of_find?_eq_some hb
  refine ⟨hmem, ?_, ?_⟩
  · intro hne
    have hperm : isOwnerOrMemberWithDeleteOwnerOnly .DELETE u b = false := by
      have hob : b.owner ≠ u := Ne.symm hne
      simp [isOwnerOrMemberWithDeleteOwnerOnly, hob]
    unfold deleteBoard runOp
    rw [hb]
    simp [hperm]
  · intro heq
    have hperm : isOwnerOrMemberWithDeleteOwnerOnly .DELETE u b = true := by
      simp [isOwnerOrMemberWithDeleteOwnerOnly, heq]
    refine ⟨by unfold deleteBoard; rw [hb]; simp [hperm], ?_, ?_, ?_, ?_, ?_, ?_⟩
    · intro b2 h2
      exact ((mem_cascadeDeleteBoard_boards s b.id b2).mp h2).2
    · intro t ht
      exact ((mem_cascadeDeleteBoard_tasks s b.id t).mp ht).2
    · intro c hc
      exact ((mem_cascadeDeleteBoard_comments s b.id c).mp hc).2
    · intro b2 h2 hne
      exact (mem_cascadeDeleteBoard_boards s b.id b2).mpr ⟨h2, hne⟩
    · intro t ht hne
      exact (mem_cascadeDeleteBoard_tasks s b.id t).mpr ⟨ht, hne⟩
    · intro c hc hcond
      exact (mem_cascadeDeleteBoard_comments s b.id c).mpr ⟨hc, hcond⟩

/-- Witness for `C3_board_delete`: Bob (a member, not the owner) and board 1. -/
theorem C3_board_delete_witness :
    board1 ∈ exStore.boards ∧
    ((2 : UserId) ≠ board1.owner →
      runOp exStore (deleteBoard exStore 2 board1.id) =
        (exStore, some (ApiError.permissionDenied none))) ∧
    ((2 : UserId) = board1.owner →
      deleteBoard exStore 2 board1.id = Except.ok (exStore.cascadeDeleteBoard board1.id) ∧
      (∀ b2 ∈ (exStore.cascadeDeleteBoard board1.id).boards, b2.id ≠ board1.id) ∧
      (∀ t ∈ (exStore.cascadeDeleteBoard board1.id).tasks, t.board ≠ board1.id) ∧
      (∀ c ∈ (exStore.cascadeDeleteBoard board1.id).comments,
        ∀ t ∈ exStore.tasks, t.id = c.task → t.board ≠ board1.id) ∧
      (∀ b2 ∈ exStore.boards, b2.id ≠ board1.id →
        b2 ∈ (exStore.cascadeDeleteBoard board1.id).boards) ∧
      (∀ t ∈ exStore.tasks, t.board ≠ board1.id →
        t ∈ (exStore.cascadeDeleteBoard board1.id).tasks) ∧
      (∀ c ∈ exStore.comments, (∀ t ∈ exStore.tasks, t.id = c.task → t.board ≠ board1.id) →
        c ∈ (exStore.cascadeDeleteBoard board1.id).comments)) :=
  C3_board_delete exStore 2 board1 rfl

/-- In a comment table with unique ids, the `CommentDestroy` object lookup
(pk search inside the task-scoped queryset) finds exactly the comment. -/
theorem find_comment_in_filter (l : List Comment) (c : Comment)
    (hmem : c ∈ l) (hnd : (l.map Comment.id).Nodup) :
    (l.filter (fun x => x.task == c.task)).find? (fun x => x.id == c.id) = some c := by
  induction l with
  | nil => cases hmem
  | cons a tl ih =>
    simp only [List.map_cons, List.nodup_cons] at hnd
    rcases List.mem_cons.mp hmem with h | h
    · subst h
      simp [List.filter_cons, List.find?]
    · have hid : (a.id == c.id) = false := by
        simp only [beq_eq_false_iff_ne]
        intro he
        exact hnd.1 (he ▸ List.mem_map_of_mem Comment.id h)
      have ih2 := ih h hnd.2
      by_cases ht : (a.task == c.task) = true
      · simp [List.filter_cons, ht, List.find?, hid, ih2]
      · have ht2 : (a.task == c.task) = false := by simpa using ht
        simp [List.filter_cons, ht2, ih2]

/-- C4: for a stored comment `c` (comment ids unique), a DELETE through
`CommentDestroy` by any user other than the author — the task owner and the
board owner included, since `u` is arbitrary — fails with `PermissionDenied`
and leaves the store untouched; a DELETE by the author succeeds and removes
exactly the comments carrying `c`'s id. -/
theorem C4_comment_delete (s : Store) (u : UserId) (c : Comment)
    (hmem : c ∈ s.comments) (hnd : (s.comments.map Comment.id).Nodup) :
    (u ≠ c.author →
      runOp s (commentDestroy s u c.task c.id) = (s, some (ApiError.permissionDenied none))) ∧
    (u = c.author →
      commentDestroy s u c.task c.id =
        Except.ok { s with comments := s.comments.filter (fun x => x.id != c.id) } ∧
      c ∉ (s.comments.filter (fun x => x.id != c.id)) ∧
      (∀ x ∈ s.comments, x.id ≠ c.id → x ∈ s.comments.filter (fun x => x.id != c.id))) := by
  have hfind := find_comment_in_filter s.comments c hmem hnd
  constructor
  · intro hne
    have hau : (c.author != u) = true := by
      simp only [bne_iff_ne]
      exact Ne.symm hne
    unfold commentDestroy runOp
    rw [hfind]
    simp [hau]
  · intro heq
    refine ⟨?_, ?_, ?_⟩
    · have hau : (c.author != u) = false := by simp [heq]
      unfold commentDestroy
      rw [hfind]
      simp [hau]
    · simp [List.mem_filter]
    · intro x hx hne
      simp only [List.mem_filter, bne_iff_ne]
      exact ⟨hx, hne⟩

/-- Witness for `C4_comment_delete`: Alice on Bob's comment 1. -/
theorem C4_comment_delete_witness :
    ((1 : UserId) ≠ comment1.author →
      runOp exStore (commentDestroy exStore 1 comment1.task comment1.id) =
        (exStore, some (ApiError.permissionDenied none))) ∧
    ((1 : UserId) = comment1.author →
      commentDestroy exStore 1 comment1.task comment1.id =
        Except.ok { exStore with
          comments := exStore.comments.filter (fun x => x.id != comment1.id) } ∧
      comment1 ∉ (exStore.comments.filter (fun x => x.id != comment1.id)) ∧
      (∀ x ∈ exStore.comments, x.id ≠ comment1.id →
        x ∈ exStore.comments.filter (fun x => x.id != comment1.id))) :=
  C4_comment_delete exStore 1 comment1 (by decide) (by decide)

/-- C5: the board list returned to an actor contains a board iff it is stored
and the actor is its owner or one of its members, and (because of
`.distinct()`) the returned list has no duplicates. -/
theorem C5_list_boards (s : Store) (u : UserId) (b : Board) :
    (b ∈ list_boards s u ↔ (b ∈ s.boards ∧ (b.owner = u ∨ u ∈ b.members))) ∧
    (list_boards s u).Nodup := by
  constructor
  · simp [list_boards, List.mem_dedup, List.mem_filter]
  · exact List.nodup_dedup _

/-- C6: a task-create request whose `assignee_id` resolves to an existing user
who is neither the target board's owner nor one of its members fails — with a
field-scoped `ValidationError` or a `PermissionDenied` — and the store is
unchanged (no task is created). -/
theorem C6_assignee_guard (s : Store) (u : UserId) (r : TaskCreateRequest) (nid : Nat)
    (b : Board) (au : UserRec)
    (hb : s.getBoard r.board = some b)
    (ha : s.getUser r.assignee_id = some au)
    (hno : au.id ≠ b.owner)
    (hnm : au.id ∉ b.members) :
    ∃ e, createTask s u r nid = Except.error e ∧
      e.isValidationOrPermission = true ∧
      runOp s (createTask s u r nid) = (s, some e) := by
  have hperm : validate_assignee_id s r.board r.assignee_id =
      Except.error (ApiError.permissionDenied (some "Assignee must be a member of the board.")) := by
    unfold validate_assignee_id
    rw [hb, ha]
    simp [bne_iff_ne, hno, hnm]
  by_cases hst : r.status ∈ STATUS_CHOICES
  · by_cases hpr : r.priority ∈ PRIORITY_CHOICES
    · have hmain : createTask s u r nid =
          Except.error (ApiError.permissionDenied (some "Assignee must be a member of the board.")) := by
        unfold createTask
        rw [hb]
        simp [hst, hpr, hperm, Bind.bind, Except.bind, Pure.pure, Except.pure]
      exact ⟨_, hmain, rfl, by unfold runOp; rw [hmain]⟩
    · have hmain : createTask s u r nid =
          Except.error (ApiError.validationError "priority" "is not a valid choice.") := by
        unfold createTask
        rw [hb]
        simp [hst, hpr, Bind.bind, Except.bind, Pure.pure, Except.pure]
      exact ⟨_, hmain, rfl, by unfold runOp; rw [hmain]⟩
  · have hmain : createTask s u r nid =
        Except.error (ApiError.validationError "status" "is not a valid choice.") := by
      unfold createTask
      rw [hb]
      simp [hst, Bind.bind, Except.bind, Pure.pure, Except.pure]
    exact ⟨_, hmain, rfl, by unfold runOp; rw [hmain]⟩

/-- The concrete request of the C6 witness: Alice creates a task on her board 1
naming Carol — who is neither owner nor member of board 1 — as assignee. -/
def c6Req : TaskCreateRequest :=
  { board := 1, title := "X", description := "", status := "to-do", priority := "low",
    assignee_id := 3, reviewer_id := 2, due_date := none }

/-- Witness for `C6_assignee_guard`. -/
theorem C6_assignee_guard_witness :
    ∃ e, createTask exStore 1 c6Req 99 = Except.error e ∧
      e.isValidationOrPermission = true ∧
      runOp exStore (createTask exStore 1 c6Req 99) = (exStore, some e) :=
  C6_assignee_guard exStore 1 c6Req 99 board1 carolU rfl rfl (by decide) (by decide)

/-- C7: any PATCH on a task whose body carries the key `board` — whatever else
it carries — yields the 400 response with detail
`"Modification of the board is not allowed."` and leaves the store (hence
every field of every task) unchanged. -/
theorem C7_board_key_rejected (s : Store) (u : UserId) (tid : Nat) (p : TaskPatch)
    (hp : p.board.isSome = true) :
    runOp s (taskPatchUpdate s u tid p) =
      (s, some (ApiError.badRequest "Modification of the board is not allowed.")) := by
  unfold taskPatchUpdate runOp
  simp [hp]

/-- The spec's own example body: `\x7b"board": 2, "status": "done"\x7d`. -/
def c7Patch : TaskPatch :=
  { board := some 2, title := none, description := none, status := some "done",
    priority := none, assignee_id := none, reviewer_id := none, due_date := none }

/-- Witness for `C7_board_key_rejected`: Bob PATCHes task 1 with the spec's
example body; the task's board and status survive unchanged. -/
theorem C7_board_key_rejected_witness :
    runOp exStore (taskPatchUpdate exStore 2 1 c7Patch) =
      (exStore, some (ApiError.badRequest "Modification of the board is not allowed.")) :=
  C7_board_key_rejected exStore 2 1 c7Patch rfl

/-- C8 (code bug): board 1's only task has `priority = "high"` and the valid
status `"to-do"`, yet `get_tasks_high_prio_count` returns 0 — the code filters
`status == "High"`, contradicting its own docstring "Return count of tasks
with priority 'High'"; the number of the board's tasks with priority `"high"`
is 1. -/
theorem C8_high_prio_counts_status :
    task1.priority = "high" ∧
    task1.status = "to-do" ∧
    get_tasks_high_prio_count exStore board1 = 0 ∧
    (exStore.tasks.filter (fun t => t.board == board1.id && t.priority == "high")).length = 1 := by
  decide

/-- C9 counterexample: no task has id 99; both comment list and comment create
on task 99 fail with `PermissionDenied` — not with `NotFound` — because
`IsBoardMemberForComments` returns `False` for a missing task before
`get_task_or_404` can ever run. -/
theorem C9_counterexample :
    exStore.getTask 99 = none ∧
    commentList exStore 1 99 = Except.error (ApiError.permissionDenied none) ∧
    commentCreate exStore 1 99 "hello" 50 12 = Except.error (ApiError.permissionDenied none) ∧
    commentCreate exStore 1 99 "hello" 50 12 ≠ Except.error (ApiError.notFound "Task not found.") := by
  refine ⟨rfl, rfl, rfl, ?_⟩
  have h3 : commentCreate exStore 1 99 "hello" 50 12 =
      Except.error (ApiError.permissionDenied none) := rfl
  rw [h3]
  intro h
  exact absurd (Except.error.inj h) (by decide)

/-- C9 (amended): a comment list or create whose task id matches no task fails
before any authorization success or mutation — but the error is
`PermissionDenied` (the permission stage treats the missing task as a denial),
not the `NotFound` of `get_task_or_404`, which is unreachable in that case. -/
theorem C9_missing_task (s : Store) (u : UserId) (tid : Nat) (content : String)
    (nid now : Nat) (h : s.getTask tid = none) :
    commentList s u tid = Except.error (ApiError.permissionDenied none) ∧
    runOp s (commentCreate s u tid content nid now) =
      (s, some (ApiError.permissionDenied none)) := by
  have hperm : isBoardMemberForComments s u tid = false := by
    unfold isBoardMemberForComments
    rw [h]
  constructor
  · unfold commentList
    simp [hperm]
  · unfold commentCreate runOp
    simp [hperm]

/-- Witness for `C9_missing_task`: Carol on the nonexistent task 99. -/
theorem C9_missing_task_witness :
    commentList exStore 3 99 = Except.error (ApiError.permissionDenied none) ∧
    runOp exStore (commentCreate exStore 3 99 "hi" 50 12) =
      (exStore, some (ApiError.permissionDenied none)) :=
  C9_missing_task exStore 3 99 "hi" 50 12 rfl

/-- A guest-style user whose first and last name are both blank. -/
def guestU : UserRec :=
  { id := 9, username := "guest_ab12cd34", email := "",
    first_name := "", last_name := "" }

/-- C10 counterexample: for a user with blank first and last name the user-mini
`fullname` (`UserMiniSerializer.get_fullname`) is the empty string, not the
user's string form — the fallback the claim describes does not exist there; it
exists only in the comment author field (`get_author`). -/
theorem C10_counterexample :
    get_fullname guestU = "" ∧
    userStr guestU = "guest_ab12cd34" ∧
    get_fullname guestU ≠ specUserMiniFullname guestU ∧
    get_author guestU = "guest_ab12cd34" := by
  decide

/-- C10 (amended): the user-mini fullname is exactly the first and last name
joined by a space and trimmed, with no fallback (empty when both components
are blank); the fallback-to-string-form behavior the spec describes is
implemented by the comment author representation, which coincides with the
spec-modelled fullname for every user. -/
theorem C10_fullname (u : UserRec) :
    get_author u = specUserMiniFullname u ∧
    get_fullname u = pyStrip (u.first_name ++ " " ++ u.last_name) := by
  constructor
  · unfold get_author specUserMiniFullname userStr
    by_cases h : pyStrip (u.first_name ++ " " ++ u.last_name) = ""
    · simp [h]
    · simp [h]
  · rfl

end Kanban
